import Mathlib

/-!
Shallow embedding of the content quality-control subsystem of the repository
(src/src/fact_checker.py, src/src/web_searcher.py, src/src/content_improver.py).

Modelling conventions:
* Python floats are modelled as exact rationals (ℚ); every numeric literal in
  the source (0.35, 0.45, 0.20, 0.4, 0.6, thresholds) is exactly representable.
* Python `None` is `Option.none`; a Python value that may be `True`/`False`/`None`
  is `Option Bool`.
* A Python `try`/`except Exception` block is `tryCatch : Except String A → (String → A) → A`;
  code that can raise is written in the `Except String` monad.
* External collaborators (the OpenAI chat completion client, `json.loads`) are
  oracles passed as function arguments; everything computed by the repository's
  own code is translated directly from the source.
* Bookkeeping fields that no claim mentions (`method`, `search_results`,
  `verification_count`, `warning`, nested `content_freshness`,
  and `reasoning` of freshness verdicts, which embeds a `%.1f`-formatted float)
  are omitted from the verdict records.
-/

namespace Ang

/-! ### String helpers: Python `needle in haystack` on lowered text -/

/-- `charsStartWith n h` is true when the char list `n` is a prefix of `h`. -/
def charsStartWith : List Char → List Char → Bool
  | [], _ => true
  | _ :: _, [] => false
  | a :: as, b :: bs => a == b && charsStartWith as bs

/-- `charsContains n h` is true when `n` occurs contiguously inside `h`. -/
def charsContains (needle : List Char) : List Char → Bool
  | [] => needle.isEmpty
  | b :: bs => charsStartWith needle (b :: bs) || charsContains needle bs

/-- Python `needle in haystack` for strings (substring containment). -/
def strContains (haystack needle : String) : Bool :=
  charsContains needle.data haystack.data

/-- Python `str.lower()` (modelled on basic latin letters, which covers every
character the embedded keyword set distinguishes). -/
def strLower (s : String) : String :=
  String.mk (s.data.map Char.toLower)

/-- Python truthiness of an optional string: `None` and `""` are falsy. -/
def pyTruthy : Option String → Bool
  | none => false
  | some s => !s.isEmpty

/-! ### Data model (the dict shapes returned by fact_checker.py) -/

/-- Result dict of `FactChecker.verify_claim` / `_parse_verification_result`. -/
structure ClaimVerdict where
  is_true : Option Bool
  confidence : ℚ
  reasoning : String
  sources : List String
  deriving DecidableEq

/-- Result dict of `WebSearcher.verify_fact` (one grounded verification round). -/
structure WebRound where
  is_true : Option Bool
  confidence : ℚ
  sources : List String
  deriving DecidableEq

/-- Result dict of `WebSearcher.check_freshness_with_search` (one grounded
freshness round). -/
structure FreshRound where
  is_fresh : Option Bool
  score : ℚ
  deriving DecidableEq

/-- Result dict of `FactChecker._analyze_content_freshness`. -/
structure ContentFreshness where
  is_fresh : Bool
  freshness_level : String
  score : ℚ
  deriving DecidableEq

/-- Result dict of `FactChecker.check_freshness`. -/
structure FreshnessVerdict where
  is_fresh : Option Bool
  freshness_level : String
  score : ℚ
  time_freshness : String
  time_score : ℚ
  deriving DecidableEq

/-- Result dict of `FactChecker.cross_reference` / `_parse_cross_ref_result`. -/
structure CrossRefVerdict where
  is_consistent : Option Bool
  confidence : ℚ
  known_facts : List String
  contradictions : List String
  additional_context : String
  reasoning : String
  deriving DecidableEq

/-- One search-result dict of `WebSearcher.search_topic` (web_searcher.py
lines 52-59). -/
structure SearchDoc where
  title : String
  summary : String
  link : String
  deriving DecidableEq

/-- The fixed weights dict of the `score_breakdown` (fact_checker.py lines 600-604). -/
structure Weights where
  truth : ℚ
  freshness : ℚ
  consistency : ℚ
  deriving DecidableEq

/-- The `score_breakdown` dict of `comprehensive_check`. -/
structure ScoreBreakdown where
  truth_score : ℚ
  freshness_score : ℚ
  consistency_score : ℚ
  weights : Weights
  deriving DecidableEq

/-- Result dict of `FactChecker.comprehensive_check`. -/
structure QualityReport where
  overall_score : ℚ
  is_pass : Bool
  quality_level : String
  truth_check : ClaimVerdict
  freshness_check : FreshnessVerdict
  consistency_check : CrossRefVerdict
  recommendation : String
  improvement_suggestions : List String
  score_breakdown : ScoreBreakdown
  deriving DecidableEq

/-! ### Scoring primitives -/

/-- The `fresh_keywords` list of `_analyze_content_freshness`
(fact_checker.py lines 33-44).  The source omits the comma after `'stable'`,
`'修复'`, the second `'重磅'`, `'初次'` and `'最新情况'`, so Python's adjacent
string-literal concatenation merges each of those with the next literal. -/
def fresh_keywords : List String :=
  ["最新", "新版本", "刚刚发布", "今天发布", "本月",
   "最近", "新推出", "正式发布", "上线", "发布",
   "v2.0", "v3.0", "v4.0", "v5.0", "v6.0",
   "2025", "2026", "2027", "2028", "2029", "2030",
   "beta", "alpha", "rc", "release", "stable更新",
   "升级", "新增", "改进", "优化", "修复breaking news",
   "breaking", "突发", "重磅", "重磅首次",
   "first", "首个", "第一", "初次最新消息",
   "最新动态", "最新进展", "最新情况今天",
   "今日", "现在", "当前", "正在"]

/-- `sum(1 for keyword in fresh_keywords if keyword in content_lower)`
(fact_checker.py line 46). -/
def freshCount (content : String) : Nat :=
  (fresh_keywords.filter (fun k => strContains (strLower content) k)).length

/-- `FactChecker._analyze_content_freshness` (fact_checker.py lines 20-71). -/
def analyzeContentFreshness (content : String) : ContentFreshness :=
  let fresh_count := freshCount content
  if fresh_count ≥ 3 then
    { is_fresh := true, freshness_level := "最新", score := 95 }
  else if fresh_count ≥ 1 then
    { is_fresh := true, freshness_level := "较新", score := 85 }
  else
    { is_fresh := false, freshness_level := "未知", score := 50 }

/-- The time-freshness step function of `check_freshness`
(fact_checker.py lines 250-279): from the elapsed age in hours (`None` when no
timestamp is given) to the `time_freshness` label and the `time_score`. -/
def timeFreshnessScore (age : Option ℚ) : String × ℚ :=
  match age with
  | some h =>
    if h < 1 then ("最新", 100)
    else if h < 24 then ("今日", 95)
    else if h < 48 then ("近2天", 85)
    else if h < 72 then ("近3天", 70)
    else if h < 168 then ("近一周", 50)
    else if h < 720 then ("近一月", 30)
    else ("较旧", 10)
  | none => ("未知", 50)

/-! ### Collaborators and the fault model -/

/-- `WebSearcher.__init__` (web_searcher.py lines 14-29): the constructor stores
the Tavily key from the configuration as `tavily_api_key` and its own argument
as `legacy_api_key`.  No attribute named `api_key` is ever assigned. -/
structure WebSearcher where
  tavily_api_key : Option String
  legacy_api_key : Option String
  deriving DecidableEq

/-- Reading `self.web_searcher.api_key` (fact_checker.py lines 126, 283, 393):
`WebSearcher.__init__` assigns only `tavily_api_key`, `tavily_client` and
`legacy_api_key`, and no other method of the class assigns attributes, so this
attribute read raises `AttributeError` on every `WebSearcher` instance. -/
def webSearcherApiKeyAttr (_ws : WebSearcher) : Except String (Option String) :=
  .error "AttributeError: WebSearcher object has no attribute api_key"

/-- `WebSearcher.verify_fact` (web_searcher.py lines 69-77): deprecated stub,
always confidence 0. -/
def verifyFact (_claim : String) : WebRound :=
  { is_true := none, confidence := 0, sources := [] }

/-- `WebSearcher.check_freshness_with_search` (web_searcher.py lines 79-88):
deprecated stub, always score 0. -/
def checkFreshnessWithSearch (_topic _content : String) : FreshRound :=
  { is_fresh := none, score := 0 }

/-- A chat-completion oracle: one `self.client.chat.completions.create` call
together with the prompt construction around it, from the text embedded in the
prompt to the stripped response text; an `error` is a request failure. -/
def Client : Type :=
  String → Except String String

/-- A search oracle: `WebSearcher.search_topic` with its Tavily client
(web_searcher.py lines 31-67), from query and `max_results` to result docs. -/
def SearchFn : Type :=
  String → Nat → List SearchDoc

/-- Python `try: body / except Exception as e: handler(e)`. -/
def tryCatch {A : Type} (body : Except String A) (handler : String → A) : A :=
  match body with
  | .ok v => v
  | .error e => handler e

/-! ### Result parsers -/

/-- `FactChecker._parse_verification_result` (fact_checker.py lines 612-625).
`parsed` is the outcome of `json.loads text`: `some r` when the text parses
into the expected shape, `none` when `json.loads` raises. -/
def parseVerificationResult (parsed : Option ClaimVerdict) (text : String) :
    ClaimVerdict :=
  match parsed with
  | some r => r
  | none =>
    { is_true := none, confidence := 50, reasoning := text, sources := [] }

/-- `FactChecker._parse_cross_ref_result` (fact_checker.py lines 627-642). -/
def parseCrossRefResult (parsed : Option CrossRefVerdict) (text : String) :
    CrossRefVerdict :=
  match parsed with
  | some r => r
  | none =>
    { is_consistent := none, confidence := 50, known_facts := [],
      contradictions := [], additional_context := text, reasoning := "" }

/-! ### Claim verification -/

/-- The multi-round consensus stage of `verify_claim`
(fact_checker.py lines 139-167) as a function of the usable rounds.
Python truthiness of `r.get('is_true')` makes `None` count as false;
`list(set(all_sources))` has unspecified order and is modelled as `dedup`. -/
def consensusFrom (rounds : List WebRound) : ClaimVerdict :=
  let n := rounds.length
  let avg_confidence := (rounds.map (fun r => r.confidence)).sum / (n : ℚ)
  let is_true := rounds.all (fun r => r.is_true == some true)
  let reasoning :=
    if is_true && decide ((80 : ℚ) ≤ avg_confidence) then
      "多源验证一致，可信度高（" ++ toString n ++ " 轮验证）"
    else if is_true && decide ((60 : ℚ) ≤ avg_confidence) then
      "多源验证基本一致，可信度中等（" ++ toString n ++ " 轮验证）"
    else if !is_true then
      "多源验证发现矛盾，可信度低（" ++ toString n ++ " 轮验证）"
    else
      "多源验证结果不一致，需要人工审核（" ++ toString n ++ " 轮验证）"
  { is_true := some is_true,
    confidence := avg_confidence,
    reasoning := reasoning,
    sources := ((rounds.map (fun r => r.sources)).flatten).dedup }

/-- The `except` verdict of `verify_claim` (fact_checker.py lines 225-233). -/
def claimErrorVerdict (e : String) : ClaimVerdict :=
  { is_true := none, confidence := 0, reasoning := "验证失败: " ++ e,
    sources := [] }

/-- The body of the `try` block of `FactChecker.verify_claim`
(fact_checker.py lines 123-223).  `client` is `self.client`; `jsonClaim` is
the `json.loads` oracle used by `_parse_verification_result`. -/
def verifyClaimBody (ws : WebSearcher) (client : Option Client)
    (jsonClaim : String → Option ClaimVerdict) (claim : String) :
    Except String ClaimVerdict := do
  let api_key ← webSearcherApiKeyAttr ws
  let grounded : Option ClaimVerdict :=
    if pyTruthy api_key then
      let verification_results :=
        [verifyFact claim, verifyFact claim].filter (fun r => 0 < r.confidence)
      if verification_results.isEmpty then none
      else some (consensusFrom verification_results)
    else none
  match grounded with
  | some v => return v
  | none =>
    match client with
    | none =>
      return { is_true := none, confidence := 0,
               reasoning := "未配置 API Key，无法验证", sources := [] }
    | some complete => do
      let result_text ← complete claim
      return parseVerificationResult (jsonClaim result_text) result_text

/-- `FactChecker.verify_claim` (fact_checker.py lines 112-233). -/
def verifyClaim (ws : WebSearcher) (client : Option Client)
    (jsonClaim : String → Option ClaimVerdict) (claim : String) : ClaimVerdict :=
  tryCatch (verifyClaimBody ws client jsonClaim claim) claimErrorVerdict

/-! ### Freshness check -/

/-- The `except` verdict of `check_freshness` (fact_checker.py lines 366-377);
its `reasoning` embeds `str(e)` in the omitted reasoning field. -/
def freshnessErrorVerdict (_e : String) : FreshnessVerdict :=
  { is_fresh := none, freshness_level := "未知", score := 0,
    time_freshness := "未知", time_score := 0 }

/-- The body of the `try` block of `FactChecker.check_freshness`
(fact_checker.py lines 247-364). -/
def checkFreshnessBody (ws : WebSearcher) (content topic : String)
    (age : Option ℚ) : Except String FreshnessVerdict := do
  let time_freshness := (timeFreshnessScore age).1
  let time_score := (timeFreshnessScore age).2
  let content_freshness := analyzeContentFreshness content
  let api_key ← webSearcherApiKeyAttr ws
  let searched : Option FreshnessVerdict :=
    if pyTruthy api_key then
      let web_freshness_results :=
        [checkFreshnessWithSearch topic content,
         checkFreshnessWithSearch topic content].filter (fun r => 0 < r.score)
      if web_freshness_results.isEmpty then none
      else
        let avg_web_score :=
          (web_freshness_results.map (fun r => r.score)).sum /
            (web_freshness_results.length : ℚ)
        let is_fresh := web_freshness_results.all (fun r => r.is_fresh == some true)
        let final_score :=
          time_score * 0.25 + avg_web_score * 0.55 + content_freshness.score * 0.20
        let fresh_level :=
          if 85 ≤ final_score then "最新"
          else if 70 ≤ final_score then "较新"
          else if 50 ≤ final_score then "一般"
          else "过时"
        some { is_fresh := some is_fresh, freshness_level := fresh_level,
               score := final_score, time_freshness := time_freshness,
               time_score := time_score }
    else none
  match searched with
  | some v => return v
  | none =>
    let final_score := time_score * 0.4 + content_freshness.score * 0.6
    if 80 ≤ final_score then
      return { is_fresh := some true, freshness_level := "最新",
               score := final_score, time_freshness := time_freshness,
               time_score := time_score }
    else if 60 ≤ final_score then
      return { is_fresh := some true, freshness_level := "较新",
               score := final_score, time_freshness := time_freshness,
               time_score := time_score }
    else if 40 ≤ final_score then
      return { is_fresh := some false, freshness_level := "一般",
               score := final_score, time_freshness := time_freshness,
               time_score := time_score }
    else
      return { is_fresh := some false, freshness_level := "过时",
               score := final_score, time_freshness := time_freshness,
               time_score := time_score }

/-- `FactChecker.check_freshness` (fact_checker.py lines 235-377). -/
def checkFreshness (ws : WebSearcher) (content topic : String)
    (age : Option ℚ) : FreshnessVerdict :=
  tryCatch (checkFreshnessBody ws content topic age) freshnessErrorVerdict

/-! ### Cross reference -/

/-- The `except` verdict of `cross_reference` (fact_checker.py lines 512-522). -/
def crossRefErrorVerdict (e : String) : CrossRefVerdict :=
  { is_consistent := none, confidence := 0, known_facts := [],
    contradictions := [], additional_context := "",
    reasoning := "验证失败: " ++ e }

/-- The body of the `try` block of `FactChecker.cross_reference`
(fact_checker.py lines 390-510). -/
def crossReferenceBody (ws : WebSearcher) (client : Option Client)
    (search : SearchFn) (jsonCross : String → Option CrossRefVerdict)
    (topic content : String) : Except String CrossRefVerdict := do
  let api_key ← webSearcherApiKeyAttr ws
  if pyTruthy api_key then
    let search_results := search topic 5
    if !search_results.isEmpty then
      match client with
      | none =>
        return { is_consistent := none, confidence := 50, known_facts := [],
                 contradictions := [], additional_context := "",
                 reasoning := "未配置 API Key，无法验证" }
      | some complete =>
        let result_text ← complete (topic ++ content)
        return parseCrossRefResult (jsonCross result_text) result_text
  match client with
  | none =>
    return { is_consistent := none, confidence := 0, known_facts := [],
             contradictions := [], additional_context := "",
             reasoning := "未配置 API Key，无法验证" }
  | some complete =>
    let result_text ← complete (topic ++ content)
    return parseCrossRefResult (jsonCross result_text) result_text

/-- `FactChecker.cross_reference` (fact_checker.py lines 379-522). -/
def crossReference (ws : WebSearcher) (client : Option Client)
    (search : SearchFn) (jsonCross : String → Option CrossRefVerdict)
    (topic content : String) : CrossRefVerdict :=
  tryCatch (crossReferenceBody ws client search jsonCross topic content)
    crossRefErrorVerdict

/-! ### Comprehensive check -/

/-- Suggestion texts of `comprehensive_check` (fact_checker.py lines 575-585). -/
def truthModSuggestion : String := "真实性不足：建议重新核实事实，添加更多可靠来源"

def freshModSuggestion : String := "时效性不足：建议更新内容，添加最新信息"

def consModSuggestion : String := "一致性不足：建议检查内容逻辑，确保信息一致"

def truthSevSuggestion : String := "警告：内容可能包含虚假信息，必须彻底核查"

def freshSevSuggestion : String := "警告：内容可能过时，建议重新获取最新资讯"

/-- The `improvement_suggestions` list built by the five sequential conditional
appends of `comprehensive_check` (fact_checker.py lines 573-585). -/
def improvementSuggestionsOf
    (truth_score freshness_score consistency_score : ℚ) : List String :=
  ((if truth_score < 70 then [truthModSuggestion] else []) ++
   (if freshness_score < 70 then [freshModSuggestion] else []) ++
   (if consistency_score < 70 then [consModSuggestion] else [])) ++
  ((if truth_score < 50 then [truthSevSuggestion] else []) ++
   (if freshness_score < 50 then [freshSevSuggestion] else []))

/-- The recommendation / quality-level ladder of `comprehensive_check`
(fact_checker.py lines 554-571). -/
def qualityLadder (overall_score : ℚ) : String × String :=
  if 90 ≤ overall_score then ("✅ 内容质量优秀，强烈推荐发布", "优秀")
  else if 80 ≤ overall_score then ("✅ 内容质量良好，推荐发布", "良好")
  else if 70 ≤ overall_score then ("⚠️ 内容质量达标，可以发布，但建议人工审核", "达标")
  else if 60 ≤ overall_score then ("❌ 内容质量一般，不建议发布，需要修改", "一般")
  else if 50 ≤ overall_score then ("❌ 内容质量较差，不建议发布，需要大幅修改", "较差")
  else ("❌ 内容质量很差，绝对不能发布", "很差")

/-- The aggregation stage of `FactChecker.comprehensive_check`
(fact_checker.py lines 542-606) as a function of the three sub-verdicts. -/
def comprehensiveCheckFrom (truth_check : ClaimVerdict)
    (freshness_check : FreshnessVerdict) (consistency_check : CrossRefVerdict) :
    QualityReport :=
  let truth_score := truth_check.confidence
  let freshness_score := freshness_check.score
  let consistency_score := consistency_check.confidence
  let overall_score :=
    truth_score * 0.35 + freshness_score * 0.45 + consistency_score * 0.20
  let rq := qualityLadder overall_score
  { overall_score := overall_score,
    is_pass := decide (70 ≤ overall_score),
    quality_level := rq.2,
    truth_check := truth_check,
    freshness_check := freshness_check,
    consistency_check := consistency_check,
    recommendation := rq.1,
    improvement_suggestions :=
      improvementSuggestionsOf truth_score freshness_score consistency_score,
    score_breakdown :=
      { truth_score := truth_score, freshness_score := freshness_score,
        consistency_score := consistency_score,
        weights := { truth := 0.35, freshness := 0.45, consistency := 0.20 } } }

/-- `FactChecker.comprehensive_check` (fact_checker.py lines 524-610). -/
def comprehensiveCheck (ws : WebSearcher) (client : Option Client)
    (search : SearchFn) (jsonClaim : String → Option ClaimVerdict)
    (jsonCross : String → Option CrossRefVerdict)
    (topic content : String) (age : Option ℚ) : QualityReport :=
  comprehensiveCheckFrom
    (verifyClaim ws client jsonClaim content)
    (checkFreshness ws content topic age)
    (crossReference ws client search jsonCross topic content)

/-! ### Content improver (src/src/content_improver.py) -/

/-- One entry of the `improvements` list in the improver's parsed response. -/
structure ImprovementItem where
  issue : String
  action : String
  before : String
  after : String
  deriving DecidableEq

/-- The expected shape of the improver's JSON response
(content_improver.py lines 259-263).  `improved_content` is optional because
`result.get('improved_content', content)` substitutes the original content
when the key is missing. -/
structure ImproveParsed where
  improved_content : Option String
  improvements : List ImprovementItem
  reasoning : String

/-- Result dict of `ContentImprover.improve_content`. -/
structure ImprovementResult where
  success : Bool
  improved_content : String
  improvements : List ImprovementItem
  reasoning : String

/-- `ContentImprover.improve_content` (content_improver.py lines 170-294).
`api_key` is `self.api_key`; `glm` is the outcome of the `try` body up to
`result_text` (sub-score extraction, prompt building and `_make_glm_request`,
lines 191-254), an `error` when any of it raises; `jsonImprove` models
`json.loads (clean_json_response result_text)` (lines 256-259), an `error e`
when `json.loads` raises `JSONDecodeError` with message `e`. -/
def improveContent (api_key : Option String) (content : String)
    (glm : Except String String)
    (jsonImprove : String → Except String ImproveParsed) : ImprovementResult :=
  if !(pyTruthy api_key) then
    { success := false, improved_content := content, improvements := [],
      reasoning := "未配置 API Key，无法改进内容" }
  else
    match glm with
    | .error e =>
      { success := false, improved_content := content, improvements := [],
        reasoning := "改进失败: " ++ e }
    | .ok result_text =>
      match jsonImprove result_text with
      | .error e =>
        { success := false, improved_content := content, improvements := [],
          reasoning := "解析失败: " ++ e }
      | .ok result =>
        { success := true,
          improved_content := result.improved_content.getD content,
          improvements := result.improvements,
          reasoning := result.reasoning }

/-! ### Shared helpers for the theorems -/

/-- Sample truth verdict with a given confidence, for concrete instantiation. -/
def sampleClaimVerdict (c : ℚ) : ClaimVerdict :=
  { is_true := some true, confidence := c, reasoning := "", sources := [] }

/-- Sample freshness verdict with a given score, for concrete instantiation. -/
def sampleFreshnessVerdict (s : ℚ) : FreshnessVerdict :=
  { is_fresh := some true, freshness_level := "最新", score := s,
    time_freshness := "今日", time_score := 95 }

/-- Sample consistency verdict with a given confidence. -/
def sampleCrossRefVerdict (c : ℚ) : CrossRefVerdict :=
  { is_consistent := some true, confidence := c, known_facts := [],
    contradictions := [], additional_context := "", reasoning := "" }

/-- Membership in a conditional singleton list. -/
theorem memIfSingleton {α : Type} (x y : α) (c : Prop) [Decidable c] :
    (x ∈ if c then [y] else []) ↔ (c ∧ x = y) := by
  split_ifs with h <;> simp [h]

/-! ### Claims -/

/-- C1: for every check, the overall score of `comprehensive_check` equals
`0.35·truth + 0.45·freshness + 0.20·consistency`, where the sub-scores are the
confidence/score fields of the three sub-verdicts (each in `[0, 100]`); the
three recorded weights sum to exactly 1; and `is_pass` holds iff the overall
score is at least 70. -/
theorem c1_weighted_overall (truth_check : ClaimVerdict)
    (freshness_check : FreshnessVerdict) (consistency_check : CrossRefVerdict)
    (ht : 0 ≤ truth_check.confidence ∧ truth_check.confidence ≤ 100)
    (hf : 0 ≤ freshness_check.score ∧ freshness_check.score ≤ 100)
    (hc : 0 ≤ consistency_check.confidence ∧ consistency_check.confidence ≤ 100) :
    (comprehensiveCheckFrom truth_check freshness_check consistency_check).overall_score
      = 0.35 * truth_check.confidence + 0.45 * freshness_check.score
        + 0.20 * consistency_check.confidence
    ∧ (comprehensiveCheckFrom truth_check freshness_check consistency_check).score_breakdown.weights.truth
      + (comprehensiveCheckFrom truth_check freshness_check consistency_check).score_breakdown.weights.freshness
      + (comprehensiveCheckFrom truth_check freshness_check consistency_check).score_breakdown.weights.consistency
      = 1
    ∧ ((comprehensiveCheckFrom truth_check freshness_check consistency_check).is_pass = true
      ↔ 70 ≤ (comprehensiveCheckFrom truth_check freshness_check consistency_check).overall_score) := by
  refine ⟨?_, ?_, ?_⟩
  · show truth_check.confidence * 0.35 + freshness_check.score * 0.45
      + consistency_check.confidence * 0.20 = _
    ring
  · norm_num [comprehensiveCheckFrom]
  · simp [comprehensiveCheckFrom]

/-- C1 witness: the theorem instantiated at sub-scores 80, 90 and 70. -/
theorem c1_weighted_overall_witness :
    (comprehensiveCheckFrom (sampleClaimVerdict 80) (sampleFreshnessVerdict 90)
        (sampleCrossRefVerdict 70)).is_pass = true
      ↔ 70 ≤ (comprehensiveCheckFrom (sampleClaimVerdict 80)
        (sampleFreshnessVerdict 90) (sampleCrossRefVerdict 70)).overall_score :=
  (c1_weighted_overall (sampleClaimVerdict 80) (sampleFreshnessVerdict 90)
    (sampleCrossRefVerdict 70) (by norm_num [sampleClaimVerdict])
    (by norm_num [sampleFreshnessVerdict])
    (by norm_num [sampleCrossRefVerdict])).2.2

/-- C2: for every topic, content and timestamp, and regardless of which API
keys and collaborators are configured, `comprehensive_check` returns overall
score 0, no pass, quality level 很差, and all five improvement suggestions:
each sub-check reads the `web_searcher.api_key` attribute, which
`WebSearcher.__init__` never defines, so each takes its catch-all error branch
and contributes confidence/score 0. -/
theorem c2_always_zero (ws : WebSearcher) (client : Option Client)
    (search : SearchFn) (jsonClaim : String → Option ClaimVerdict)
    (jsonCross : String → Option CrossRefVerdict)
    (topic content : String) (age : Option ℚ) :
    (comprehensiveCheck ws client search jsonClaim jsonCross topic content age).overall_score = 0
    ∧ (comprehensiveCheck ws client search jsonClaim jsonCross topic content age).is_pass = false
    ∧ (comprehensiveCheck ws client search jsonClaim jsonCross topic content age).quality_level = "很差"
    ∧ (comprehensiveCheck ws client search jsonClaim jsonCross topic content age).improvement_suggestions
      = [truthModSuggestion, freshModSuggestion, consModSuggestion,
         truthSevSuggestion, freshSevSuggestion] := by
  have h1 : verifyClaim ws client jsonClaim content
      = claimErrorVerdict "AttributeError: WebSearcher object has no attribute api_key" := rfl
  have h2 : checkFreshness ws content topic age
      = freshnessErrorVerdict "AttributeError: WebSearcher object has no attribute api_key" := rfl
  have h3 : crossReference ws client search jsonCross topic content
      = crossRefErrorVerdict "AttributeError: WebSearcher object has no attribute api_key" := rfl
  simp only [comprehensiveCheck]
  rw [h1, h2, h3]
  refine ⟨?_, ?_, ?_, ?_⟩ <;>
    norm_num [comprehensiveCheckFrom, claimErrorVerdict, freshnessErrorVerdict,
      crossRefErrorVerdict, qualityLadder, improvementSuggestionsOf,
      decide_eq_false_iff_not]

/-- C3 (code bug): the claim says that with no grounded-search score available
`check_freshness` never returns an error verdict and blends
`0.4·time + 0.6·content`; in the code the read of `self.web_searcher.api_key`
raises `AttributeError` before the blend is reached, so on the failing input
(topic "AI", content "hello world", no timestamp) the returned verdict is the
catch-all error verdict with score 0, not the blended `0.4·50 + 0.6·50 = 50`. -/
theorem c3_no_search_blend_unreachable (ws : WebSearcher) :
    checkFreshness ws "hello world" "AI" none
      = freshnessErrorVerdict "AttributeError: WebSearcher object has no attribute api_key"
    ∧ (checkFreshness ws "hello world" "AI" none).score = 0
    ∧ (checkFreshness ws "hello world" "AI" none).score ≠ 0.4 * 50 + 0.6 * 50 := by
  refine ⟨rfl, rfl, ?_⟩
  have h : (checkFreshness ws "hello world" "AI" none).score = 0 := rfl
  rw [h]
  norm_num

/-- C4: with a timestamp, the time sub-score of `check_freshness` is exactly
the documented step function of elapsed hours, with exact boundaries
(`h = 24.001` gives 85); without a timestamp it is 50. -/
theorem c4_time_step (h : ℚ) :
    (h < 1 → (timeFreshnessScore (some h)).2 = 100)
    ∧ (1 ≤ h → h < 24 → (timeFreshnessScore (some h)).2 = 95)
    ∧ (24 ≤ h → h < 48 → (timeFreshnessScore (some h)).2 = 85)
    ∧ (48 ≤ h → h < 72 → (timeFreshnessScore (some h)).2 = 70)
    ∧ (72 ≤ h → h < 168 → (timeFreshnessScore (some h)).2 = 50)
    ∧ (168 ≤ h → h < 720 → (timeFreshnessScore (some h)).2 = 30)
    ∧ (720 ≤ h → (timeFreshnessScore (some h)).2 = 10)
    ∧ (timeFreshnessScore (some (24 + 1 / 1000))).2 = 85
    ∧ (timeFreshnessScore none).2 = 50 := by
  refine ⟨?_, ?_, ?_, ?_, ?_, ?_, ?_, ?_, rfl⟩ <;>
    first
    | (intro h1
       simp only [timeFreshnessScore]
       split_ifs <;> first | rfl | (exfalso; linarith))
    | (intro h1 h2
       simp only [timeFreshnessScore]
       split_ifs <;> first | rfl | (exfalso; linarith))
    | (simp only [timeFreshnessScore]
       norm_num)

/-- C4 witness: the theorem instantiated at 30 elapsed hours. -/
theorem c4_time_step_witness : (timeFreshnessScore (some 30)).2 = 85 :=
  (c4_time_step 30).2.2.1 (by norm_num) (by norm_num)

/-- Helper: the consensus reasoning text in the agree-and-high-confidence band. -/
theorem consensusReasoningHigh (rounds : List WebRound)
    (htrue : rounds.all (fun r => r.is_true == some true) = true)
    (hconf : (80 : ℚ) ≤ (rounds.map (fun r => r.confidence)).sum / (rounds.length : ℚ)) :
    (consensusFrom rounds).reasoning
      = "多源验证一致，可信度高（" ++ toString rounds.length ++ " 轮验证）" := by
  show (if rounds.all (fun r => r.is_true == some true)
        && decide ((80 : ℚ) ≤ (rounds.map (fun r => r.confidence)).sum / (rounds.length : ℚ))
      then "多源验证一致，可信度高（" ++ toString rounds.length ++ " 轮验证）"
      else _) = _
  rw [htrue, decide_eq_true hconf]
  rfl

/-- C5 counterexample: with two usable rounds of confidences 90 and 70, both
with verdict true, the mean 80 meets the ≥80 threshold, so the reasoning is
the high-confidence message and not the medium-confidence message the claim
asserts. -/
theorem c5_counterexample :
    (consensusFrom [⟨some true, 90, []⟩, ⟨some true, 70, []⟩]).confidence = 80
    ∧ (consensusFrom [⟨some true, 90, []⟩, ⟨some true, 70, []⟩]).reasoning
      = "多源验证一致，可信度高（2 轮验证）"
    ∧ "多源验证一致，可信度高（2 轮验证）"
      ≠ "多源验证基本一致，可信度中等（2 轮验证）" := by
  have hsum : (([⟨some true, 90, []⟩, ⟨some true, 70, []⟩] : List WebRound).map
      (fun r => r.confidence)).sum
      / (([⟨some true, 90, []⟩, ⟨some true, 70, []⟩] : List WebRound).length : ℚ) = 80 := by
    show ((90 : ℚ) + (70 + 0)) / ((2 : ℕ) : ℚ) = 80
    norm_num
  have htrue : ([⟨some true, 90, []⟩, ⟨some true, 70, []⟩] : List WebRound).all
      (fun r => r.is_true == some true) = true := rfl
  have hreas := consensusReasoningHigh
    [⟨some true, 90, []⟩, ⟨some true, 70, []⟩] htrue (le_of_eq hsum.symm)
  exact ⟨hsum, hreas.trans rfl, by decide⟩

/-- C5 (amended): whenever at least one usable round exists, the consensus
stage of `verify_claim` returns `is_true` equal to the conjunction of all
usable rounds' verdicts and confidence equal to the arithmetic mean of their
confidences; for two usable rounds of confidences 90 and 70 both true, the
confidence is 80 and the reasoning is the high-confidence (agreement with
confidence ≥ 80) message; and any usable round with verdict false forces
`is_true` false. -/
theorem c5_consensus (rounds : List WebRound) (hne : rounds ≠ []) :
    (consensusFrom rounds).is_true
      = some (rounds.all (fun r => r.is_true == some true))
    ∧ (consensusFrom rounds).confidence
      = (rounds.map (fun r => r.confidence)).sum / (rounds.length : ℚ)
    ∧ (∀ r ∈ rounds, r.is_true = some false →
        (consensusFrom rounds).is_true = some false)
    ∧ (consensusFrom [⟨some true, 90, []⟩, ⟨some true, 70, []⟩]).confidence = 80
    ∧ (consensusFrom [⟨some true, 90, []⟩, ⟨some true, 70, []⟩]).reasoning
      = "多源验证一致，可信度高（2 轮验证）" := by
  refine ⟨rfl, rfl, ?_, ?_, ?_⟩
  · intro r hr hfalse
    show some (rounds.all (fun r => r.is_true == some true)) = some false
    refine congrArg some (List.all_eq_false.mpr ⟨r, hr, ?_⟩)
    simp [hfalse]
  · show ((90 : ℚ) + (70 + 0)) / ((2 : ℕ) : ℚ) = 80
    norm_num
  · have hsum : (([⟨some true, 90, []⟩, ⟨some true, 70, []⟩] : List WebRound).map
        (fun r => r.confidence)).sum
        / (([⟨some true, 90, []⟩, ⟨some true, 70, []⟩] : List WebRound).length : ℚ) = 80 := by
      show ((90 : ℚ) + (70 + 0)) / ((2 : ℕ) : ℚ) = 80
      norm_num
    exact (consensusReasoningHigh [⟨some true, 90, []⟩, ⟨some true, 70, []⟩] rfl
      (le_of_eq hsum.symm)).trans rfl

/-- C5 witness: the theorem instantiated at a single usable round with verdict
false. -/
theorem c5_consensus_witness :
    (consensusFrom [⟨some false, 60, []⟩]).is_true
      = some (([⟨some false, 60, []⟩] : List WebRound).all
          (fun r => r.is_true == some true)) :=
  (c5_consensus [⟨some false, 60, []⟩] (by simp)).1

/-- C6: the content-freshness sub-score counts which keywords of the fixed set
occur (case-insensitively) in the content: count ≥ 3 gives 95 (fresh, 最新),
count ≥ 1 gives 85 (fresh, 较新), count 0 gives 50 (not fresh). -/
theorem c6_content_freshness (content : String) :
    (3 ≤ freshCount content →
      analyzeContentFreshness content
        = { is_fresh := true, freshness_level := "最新", score := 95 })
    ∧ (1 ≤ freshCount content → freshCount content < 3 →
      analyzeContentFreshness content
        = { is_fresh := true, freshness_level := "较新", score := 85 })
    ∧ (freshCount content = 0 →
      analyzeContentFreshness content
        = { is_fresh := false, freshness_level := "未知", score := 50 }) := by
  refine ⟨?_, ?_, ?_⟩
  · intro h1
    simp only [analyzeContentFreshness]
    split_ifs <;> first | rfl | omega
  · intro h1 h2
    simp only [analyzeContentFreshness]
    split_ifs <;> first | rfl | omega
  · intro h1
    simp only [analyzeContentFreshness]
    split_ifs <;> first | rfl | omega

/-- C6 witness: the theorem instantiated on contents hitting all three bands. -/
theorem c6_content_freshness_witness :
    (3 ≤ freshCount "2025 beta release"
      ∧ analyzeContentFreshness "2025 beta release"
        = { is_fresh := true, freshness_level := "最新", score := 95 })
    ∧ (1 ≤ freshCount "beta"
      ∧ analyzeContentFreshness "beta"
        = { is_fresh := true, freshness_level := "较新", score := 85 })
    ∧ (freshCount "abc" = 0
      ∧ analyzeContentFreshness "abc"
        = { is_fresh := false, freshness_level := "未知", score := 50 }) :=
  ⟨⟨by decide, (c6_content_freshness "2025 beta release").1 (by decide)⟩,
   ⟨by decide, (c6_content_freshness "beta").2.1 (by decide) (by decide)⟩,
   ⟨by decide, (c6_content_freshness "abc").2.2 (by decide)⟩⟩

/-- C7: any exception raised inside `verify_claim`, `check_freshness` or
`cross_reference` is caught and converted into an unknown verdict with
confidence (resp. score) 0, and `comprehensive_check` always returns a report
whose overall score is the weighted sum of the three sub-verdict fields, so it
stays computable and nothing is raised to the caller. -/
theorem c7_failure_semantics (e : String) (ws : WebSearcher)
    (client : Option Client) (search : SearchFn)
    (jsonClaim : String → Option ClaimVerdict)
    (jsonCross : String → Option CrossRefVerdict)
    (topic content : String) (age : Option ℚ) :
    tryCatch (Except.error e) claimErrorVerdict
      = { is_true := none, confidence := 0, reasoning := "验证失败: " ++ e,
          sources := [] }
    ∧ tryCatch (Except.error e) freshnessErrorVerdict
      = { is_fresh := none, freshness_level := "未知", score := 0,
          time_freshness := "未知", time_score := 0 }
    ∧ tryCatch (Except.error e) crossRefErrorVerdict
      = { is_consistent := none, confidence := 0, known_facts := [],
          contradictions := [], additional_context := "",
          reasoning := "验证失败: " ++ e }
    ∧ (comprehensiveCheck ws client search jsonClaim jsonCross topic content age).overall_score
      = (verifyClaim ws client jsonClaim content).confidence * 0.35
        + (checkFreshness ws content topic age).score * 0.45
        + (crossReference ws client search jsonCross topic content).confidence * 0.20 :=
  ⟨rfl, rfl, rfl, rfl⟩

/-- C8 counterexample: with truth 90, freshness 90 and consistency 40, the
consistency sub-score is below 50 yet the suggestion list holds only the
consistency moderate suggestion — `comprehensive_check` appends no escalated
warning for the consistency dimension, contrary to the claim that each
sub-score below 50 appends one. -/
theorem c8_counterexample :
    (comprehensiveCheckFrom (sampleClaimVerdict 90) (sampleFreshnessVerdict 90)
        (sampleCrossRefVerdict 40)).score_breakdown.consistency_score < 50
    ∧ (comprehensiveCheckFrom (sampleClaimVerdict 90) (sampleFreshnessVerdict 90)
        (sampleCrossRefVerdict 40)).improvement_suggestions
      = [consModSuggestion] := by
  constructor
  · show (40 : ℚ) < 50
    norm_num
  · show improvementSuggestionsOf 90 90 40 = [consModSuggestion]
    norm_num [improvementSuggestionsOf]

/-- C8 (amended): each sub-score below 70 appends its targeted suggestion;
truth and freshness below 50 each also append an escalated warning, while
consistency has no escalated warning; the list holds nothing else, all
moderate suggestions precede all severe warnings, and truth 40, freshness 80,
consistency 90 yields exactly the truth moderate suggestion followed by the
truth severe warning. -/
theorem c8_suggestions (t f c : ℚ) :
    (truthModSuggestion ∈ improvementSuggestionsOf t f c ↔ t < 70)
    ∧ (freshModSuggestion ∈ improvementSuggestionsOf t f c ↔ f < 70)
    ∧ (consModSuggestion ∈ improvementSuggestionsOf t f c ↔ c < 70)
    ∧ (truthSevSuggestion ∈ improvementSuggestionsOf t f c ↔ t < 50)
    ∧ (freshSevSuggestion ∈ improvementSuggestionsOf t f c ↔ f < 50)
    ∧ (∀ x ∈ improvementSuggestionsOf t f c,
        x ∈ [truthModSuggestion, freshModSuggestion, consModSuggestion,
             truthSevSuggestion, freshSevSuggestion])
    ∧ (∃ m s, improvementSuggestionsOf t f c = m ++ s
        ∧ (∀ x ∈ m, x ∈ [truthModSuggestion, freshModSuggestion, consModSuggestion])
        ∧ (∀ x ∈ s, x ∈ [truthSevSuggestion, freshSevSuggestion]))
    ∧ (comprehensiveCheckFrom (sampleClaimVerdict 40) (sampleFreshnessVerdict 80)
        (sampleCrossRefVerdict 90)).improvement_suggestions
      = [truthModSuggestion, truthSevSuggestion] := by
  refine ⟨?_, ?_, ?_, ?_, ?_, ?_, ?_, ?_⟩
  · simp [improvementSuggestionsOf, memIfSingleton, truthModSuggestion,
      freshModSuggestion, consModSuggestion, truthSevSuggestion, freshSevSuggestion]
  · simp [improvementSuggestionsOf, memIfSingleton, truthModSuggestion,
      freshModSuggestion, consModSuggestion, truthSevSuggestion, freshSevSuggestion]
  · simp [improvementSuggestionsOf, memIfSingleton, truthModSuggestion,
      freshModSuggestion, consModSuggestion, truthSevSuggestion, freshSevSuggestion]
  · simp [improvementSuggestionsOf, memIfSingleton, truthModSuggestion,
      freshModSuggestion, consModSuggestion, truthSevSuggestion, freshSevSuggestion]
  · simp [improvementSuggestionsOf, memIfSingleton, truthModSuggestion,
      freshModSuggestion, consModSuggestion, truthSevSuggestion, freshSevSuggestion]
  · intro x hx
    simp only [improvementSuggestionsOf, List.mem_append, memIfSingleton] at hx
    rcases hx with ((⟨_, rfl⟩ | ⟨_, rfl⟩) | ⟨_, rfl⟩) | (⟨_, rfl⟩ | ⟨_, rfl⟩) <;> simp
  · refine ⟨(if t < 70 then [truthModSuggestion] else []) ++
      (if f < 70 then [freshModSuggestion] else []) ++
      (if c < 70 then [consModSuggestion] else []),
      (if t < 50 then [truthSevSuggestion] else []) ++
      (if f < 50 then [freshSevSuggestion] else []), rfl, ?_, ?_⟩
    · intro x hx
      simp only [List.mem_append, memIfSingleton] at hx
      rcases hx with (⟨_, rfl⟩ | ⟨_, rfl⟩) | ⟨_, rfl⟩ <;> simp
    · intro x hx
      simp only [List.mem_append, memIfSingleton] at hx
      rcases hx with ⟨_, rfl⟩ | ⟨_, rfl⟩ <;> simp
  · show improvementSuggestionsOf 40 80 90 = [truthModSuggestion, truthSevSuggestion]
    norm_num [improvementSuggestionsOf]

/-- C9: a provider response that cannot be parsed yields degraded verdicts:
the claim parser returns confidence 50, unknown truth and the raw text
verbatim as reasoning; the cross-reference parser returns confidence 50,
unknown consistency and the raw text verbatim as additional context; both are
total, so neither ever raises. -/
theorem c9_parse_fallback (text : String) :
    parseVerificationResult none text
      = { is_true := none, confidence := 50, reasoning := text, sources := [] }
    ∧ parseCrossRefResult none text
      = { is_consistent := none, confidence := 50, known_facts := [],
          contradictions := [], additional_context := text, reasoning := "" } :=
  ⟨rfl, rfl⟩

/-- C10: on every failure path of `improve_content` — no provider key
configured, the provider call failing, or an unparsable provider response —
the result has `success` false and `improved_content` exactly equal to the
original input content. -/
theorem c10_nondestructive (api_key : Option String) (content text e pe : String)
    (glm : Except String String)
    (jsonImprove : String → Except String ImproveParsed) :
    ((improveContent api_key content glm jsonImprove).success = false →
      (improveContent api_key content glm jsonImprove).improved_content = content)
    ∧ (improveContent none content glm jsonImprove).success = false
    ∧ (improveContent none content glm jsonImprove).improved_content = content
    ∧ (improveContent api_key content (Except.error e) jsonImprove).success = false
    ∧ (improveContent api_key content (Except.error e) jsonImprove).improved_content = content
    ∧ (improveContent api_key content (Except.ok text)
        (fun x => Except.error pe)).success = false
    ∧ (improveContent api_key content (Except.ok text)
        (fun x => Except.error pe)).improved_content = content := by
  refine ⟨?_, ?_, ?_, ?_, ?_, ?_, ?_⟩
  · intro hfail
    cases hpk : pyTruthy api_key with
    | false => simp [improveContent, hpk]
    | true =>
      cases glm with
      | error e2 => simp [improveContent, hpk]
      | ok txt =>
        cases hj : jsonImprove txt with
        | error pe2 => simp [improveContent, hpk, hj]
        | ok r =>
          exfalso
          simp [improveContent, hpk, hj] at hfail
  · simp [improveContent, pyTruthy]
  · simp [improveContent, pyTruthy]
  · cases hpk : pyTruthy api_key <;> simp [improveContent, hpk]
  · cases hpk : pyTruthy api_key <;> simp [improveContent, hpk]
  · cases hpk : pyTruthy api_key <;> simp [improveContent, hpk]
  · cases hpk : pyTruthy api_key <;> simp [improveContent, hpk]

/-- C10 witness: the theorem instantiated at a configured key, a successful
provider call and a failing parse. -/
theorem c10_nondestructive_witness :
    (improveContent (some "k") "orig" (Except.ok "not json")
      (fun x => Except.error "Expecting value")).improved_content = "orig" :=
  (c10_nondestructive (some "k") "orig" "not json" "" "Expecting value"
    (Except.ok "not json") (fun x => Except.error "Expecting value")).1 (by rfl)

end Ang
